import Mathlib

/-!
Shallow embedding of src/setlist_to_playlist.py and proofs about it.

The program has two pipelines:
* a setlist fetcher (class SetlistClient): reads concert rows, queries the
  setlist.fm search endpoint with a bounded retry loop, and writes one JSON
  file per matched concert;
* a playlist builder (class SpotifyClient): reads setlist JSON documents,
  resolves each song to a track URI via the Spotify search endpoint, and
  appends the aggregated batch to a playlist.

Network responses are modelled as oracles (functions from request data to
response data); every function below is translated from the Python source,
with the line numbers of the source given in the doc comments.
-/

namespace SetlistToPlaylist

/-- A calendar date as the three components handed to datetime.date(y, m, d).
The Python constructor validates ranges; validation is irrelevant to the
properties proved here, so the components are carried as plain naturals. -/
structure Date where
  year : Nat
  month : Nat
  day : Nat
deriving DecidableEq

/-- Decimal rendering of a natural, left-padded with zeros to a given width,
as Python's %0Nd / str(datetime.date) component formatting does. -/
def padNum (width n : Nat) : String :=
  let s := toString n
  String.mk (List.replicate (width - s.length) '0') ++ s

/-- str(datetime.date): ISO format YYYY-MM-DD (line 336 formats playlist_date
with str via "{}".format). -/
def dateStr (d : Date) : String :=
  padNum 4 d.year ++ "-" ++ padNum 2 d.month ++ "-" ++ padNum 2 d.day

/-- concert_date.strftime with format DD-MM-YYYY (line 244). -/
def strftime_dmy (d : Date) : String :=
  padNum 2 d.day ++ "-" ++ padNum 2 d.month ++ "-" ++ padNum 4 d.year

/-- The numeric value of a decimal digit character. -/
def digitVal (c : Char) : Nat := c.toNat - 48

/-- The numeric value of a decimal digit string, most significant digit
first; used to read back the sequence number embedded in a filename. -/
def decValue (cs : List Char) : Nat :=
  cs.foldl (fun a c => a * 10 + digitVal c) 0

/-- A song entry of a setlist document: the source reads song["name"]
(line 555). -/
structure Song where
  name : String
deriving DecidableEq

/-- One performance set: the source reads set_item["song"] (line 554). -/
structure SetEntry where
  song : List Song
deriving DecidableEq

/-- The "sets" object of a setlist: the source reads sets["set"]
(lines 262, 553). -/
structure SetsObj where
  set : List SetEntry
deriving DecidableEq

/-- The "artist" object of a setlist: the source reads artist["name"]
(line 552). -/
structure ArtistObj where
  name : String
deriving DecidableEq

/-- One element of the response's "setlist" array. -/
structure Setlist where
  artist : ArtistObj
  sets : SetsObj
deriving DecidableEq

/-- The body of a setlist.fm search response / one stored JSON document:
the source reads setlist_json["setlist"] (lines 261, 552). -/
structure SetlistJson where
  setlist : List Setlist
deriving DecidableEq

/-- An HTTP response as the fetch loop reads it: status_code, reason, and the
parsed JSON body (only read when the status is 200). -/
structure HttpResponse where
  status_code : Nat
  reason : String
  body : SetlistJson
deriving DecidableEq

/-- The configuration the retry loop consults: setlist_num_retries and
setlist_retriable_errors (lines 215-216; the Python set built from a
comma-separated list is modelled as the list, used only via membership). -/
structure SetlistConfig where
  setlist_num_retries : Nat
  setlist_retriable_errors : List String
deriving DecidableEq

/-- The log lines emitted by SetlistClient.__get_setlist, one constructor per
logging statement of the source (lines 265, 271, 273, 276). -/
inductive SetlistLog
  | noSetlistFound (artist_name formatted_date : String)
  | retriableRetry (artist_name formatted_date reason : String) (retryNum : Nat)
  | errorNonRetriable (reason artist_name formatted_date : String)
  | maxRetriesReached (artist_name formatted_date : String)
deriving DecidableEq

/-- Whether a log line is the "Retriable error ... Retry #n" line of line 271;
counting these counts the retries the loop performed. -/
def SetlistLog.isRetry : SetlistLog → Bool
  | SetlistLog.retriableRetry _ _ _ _ => true
  | _ => false

/-- What one call of SetlistClient.__get_setlist produces: the returned value
(the raw response body, or None), the number of HTTP requests issued, and the
log lines emitted. -/
structure FetchResult where
  result : Option SetlistJson
  requests : Nat
  logs : List SetlistLog
deriving DecidableEq

/-- The retry loop of SetlistClient.__get_setlist (lines 252-277).
num_retries is the Python loop counter; remaining is the number of iterations
the guard "num_retries <= setlist_num_retries" (line 254) still permits, that
is setlist_num_retries + 1 - num_retries: the guard fails exactly when
remaining is 0, which makes the recursion structural.  The n-th HTTP request
of the call is answered by resp n; since num_retries is incremented exactly
once per iteration that loops, the iteration entered with counter value k
issues request number k.
Body of one iteration: issue the request (line 256); on status 200 return the
body if the setlist array is non-empty and its first element has a non-empty
set list, else log the not-found error and return None (lines 259-266); on a
failure with a retriable reason increment the counter, log, and loop
(lines 269-271); on any other reason log the error and return None
(lines 272-274).  Falling out of the loop logs the maximum-retries error and
returns None (lines 276-277). -/
def getSetlistIter (cfg : SetlistConfig) (artist_name formatted_date : String)
    (resp : Nat → HttpResponse) : Nat → Nat → FetchResult
  | _, 0 =>
      { result := none, requests := 0,
        logs := [SetlistLog.maxRetriesReached artist_name formatted_date] }
  | num_retries, remaining + 1 =>
      if (resp num_retries).status_code = 200 then
        match (resp num_retries).body.setlist with
        | [] =>
            { result := none, requests := 1,
              logs := [SetlistLog.noSetlistFound artist_name formatted_date] }
        | first :: _ =>
            if first.sets.set.length > 0 then
              { result := some (resp num_retries).body, requests := 1, logs := [] }
            else
              { result := none, requests := 1,
                logs := [SetlistLog.noSetlistFound artist_name formatted_date] }
      else
        if (resp num_retries).reason ∈ cfg.setlist_retriable_errors then
          let rest := getSetlistIter cfg artist_name formatted_date resp
                        (num_retries + 1) remaining
          { result := rest.result, requests := rest.requests + 1,
            logs := SetlistLog.retriableRetry artist_name formatted_date
                      (resp num_retries).reason (num_retries + 1) :: rest.logs }
        else
          { result := none, requests := 1,
            logs := [SetlistLog.errorNonRetriable (resp num_retries).reason
                       artist_name formatted_date] }

/-- SetlistClient.__get_setlist (lines 226-277): format the date (line 244)
and run the retry loop from num_retries = 0 (line 253), where the guard
allows setlist_num_retries + 1 iterations. -/
def get_setlist (cfg : SetlistConfig) (resp : Nat → HttpResponse)
    (artist_name : String) (concert_date : Date) : FetchResult :=
  getSetlistIter cfg artist_name (strftime_dmy concert_date) resp 0
    (cfg.setlist_num_retries + 1)

/-- The response to request n is an HTTP failure with a retriable reason. -/
def retriableFailure (cfg : SetlistConfig) (r : HttpResponse) : Prop :=
  r.status_code ≠ 200 ∧ r.reason ∈ cfg.setlist_retriable_errors

instance (cfg : SetlistConfig) (r : HttpResponse) :
    Decidable (retriableFailure cfg r) := by
  unfold retriableFailure; infer_instance

/-- A response body with exactly one setlist that has one non-empty set. -/
def exBodyOk : SetlistJson :=
  ⟨[⟨⟨"A"⟩, ⟨[⟨[⟨"song1"⟩]⟩]⟩⟩]⟩

/-- A response body whose first setlist has no sets while its second setlist
is non-empty. -/
def exBodyFirstEmpty : SetlistJson :=
  ⟨[⟨⟨"A"⟩, ⟨[]⟩⟩, ⟨⟨"A"⟩, ⟨[⟨[⟨"song1"⟩]⟩]⟩⟩]⟩

-- ### Spotify client (SpotifyClient, lines 340-567)

/-- One artist object of a Spotify track item: the source reads
result["artists"][0]["name"] (line 490). -/
structure TrackArtist where
  name : String
deriving DecidableEq

/-- One element of results["tracks"]["items"]: the source reads its "artists",
"name" and "uri" fields (lines 489-492). -/
structure TrackItem where
  artists : List TrackArtist
  name : String
  uri : String
deriving DecidableEq

/-- Python str.lower() as used for the case-insensitive comparisons of
line 494, character by character (ASCII case folding; the claims compare
ASCII names). -/
def lower (s : String) : String :=
  String.mk (s.data.map Char.toLower)

/-- The log lines emitted by the playlist builder, one constructor per
logging statement of the source (lines 495, 559, 561, 565, 567). -/
inductive SpotifyLog
  | mismatchWarning (artist_found artist_name track_found track_name : String)
  | addingSong (artist_name song_name : String)
  | songNotFound (artist_name song_name : String)
  | concertAdded (concert_name : String)
  | noMatchingTracks (concert_name : String)
deriving DecidableEq

/-- SpotifyClient.__search_spotify_track (lines 466-499).  spSearch is the
oracle for self._sp.search restricted to what the code reads of it: the
results["tracks"]["items"] list for a query string.  The query is
"{} {}".format(track_name, artist_name) (line 484).  If the items list is
empty, None is returned (line 499); otherwise the top item's uri is returned
(lines 489-497), with a warning logged when the found artist or track name
differs from the query under lowercasing (lines 494-495).  The outer Option
is none exactly when the source would raise an IndexError at
result["artists"][0] (line 490), i.e. when the top item has no artists. -/
def search_spotify_track (spSearch : String → List TrackItem)
    (track_name artist_name : String) : Option (Option String × List SpotifyLog) :=
  let query := track_name ++ " " ++ artist_name
  match spSearch query with
  | [] => some (none, [])
  | result :: _ =>
    match result.artists with
    | [] => none
    | a0 :: _ =>
      if lower a0.name ≠ lower artist_name ∨ lower result.name ≠ lower track_name then
        some (some result.uri,
          [SpotifyLog.mismatchWarning a0.name artist_name result.name track_name])
      else
        some (some result.uri, [])

/-- The body of the inner song loop of
SpotifyClient.populate_year_spotify_playlist (lines 554-561), one song at a
time, threading the (track_uris, log lines) accumulator.  searchTrack is the
value of self.__search_spotify_track(song_name, artist_name).  The source
tests "if track_uri:", which is Python truthiness: None and the empty string
both fall to the else branch, which logs the not-found error; the then branch
appends the uri and emits the debug trace. -/
def track_step (searchTrack : String → String → Option String) (artist_name : String)
    (st : List String × List SpotifyLog) (song : Song) :
    List String × List SpotifyLog :=
  match searchTrack song.name artist_name with
  | some uri =>
      if uri.isEmpty then
        (st.1, st.2 ++ [SpotifyLog.songNotFound artist_name song.name])
      else
        (st.1 ++ [uri], st.2 ++ [SpotifyLog.addingSong artist_name song.name])
  | none => (st.1, st.2 ++ [SpotifyLog.songNotFound artist_name song.name])

/-- The per-concert resolution loop of populate_year_spotify_playlist
(lines 551-561): track_uris starts empty, the artist name is read from
setlist_json["setlist"][0]["artist"]["name"] (line 552), and the loops run
over setlist_json["setlist"][0]["sets"]["set"] and each set_item["song"]
(lines 553-554).  On an empty "setlist" array the source would raise an
IndexError at line 552; that (unreachable for documents the fetcher wrote)
case is mapped to the empty result. -/
def concert_track_uris (searchTrack : String → String → Option String)
    (doc : SetlistJson) : List String × List SpotifyLog :=
  match doc.setlist with
  | [] => ([], [])
  | first :: _ =>
      (first.sets.set).foldl
        (fun st set_item => set_item.song.foldl (track_step searchTrack first.artist.name) st)
        ([], [])

/-- The per-concert submission step of populate_year_spotify_playlist
(lines 563-567): Python truthiness of the track_uris list — if non-empty, one
playlist_add_items call with the whole batch (modelled as the single
mutation pair (playlist_id, track_uris)) and the success log; if empty, no
call and the error log. -/
def concert_mutations (searchTrack : String → String → Option String)
    (playlist_id concert_name : String) (doc : SetlistJson) :
    List (String × List String) × List SpotifyLog :=
  let r := concert_track_uris searchTrack doc
  if r.1.isEmpty then
    ([], r.2 ++ [SpotifyLog.noMatchingTracks concert_name])
  else
    ([(playlist_id, r.1)], r.2 ++ [SpotifyLog.concertAdded concert_name])

/-- The uri the accumulation keeps for one song: the resolved identifier if
the search matched and the identifier is truthy (non-empty), nothing
otherwise.  Used to state what concert_track_uris collects. -/
def matchedUri (searchTrack : String → String → Option String) (artist_name : String)
    (song : Song) : Option String :=
  match searchTrack song.name artist_name with
  | some uri => if uri.isEmpty then none else some uri
  | none => none

/-- The one log line track_step emits for one song. -/
def stepLog (searchTrack : String → String → Option String) (artist_name : String)
    (song : Song) : SpotifyLog :=
  match searchTrack song.name artist_name with
  | some uri =>
      if uri.isEmpty then SpotifyLog.songNotFound artist_name song.name
      else SpotifyLog.addingSong artist_name song.name
  | none => SpotifyLog.songNotFound artist_name song.name

/-- One entry of the user's playlist list as the source reads it: its "name"
and "id" fields (lines 519-521). -/
structure PlaylistEntry where
  name : String
  id : String
deriving DecidableEq

/-- SpotifyClient.__get_playlist_id_by_name (lines 501-523): scan the user's
playlists in order and return the id of the first whose name equals the
requested name exactly; None when none matches. -/
def get_playlist_id_by_name (playlists : List PlaylistEntry)
    (playlist_name : String) : Option String :=
  match playlists with
  | [] => none
  | p :: rest =>
      if p.name = playlist_name then some p.id
      else get_playlist_id_by_name rest playlist_name

/-- How populate_year_spotify_playlist obtains its playlist id
(lines 537-544): either an existing playlist's id was reused, or a playlist
with the given name was created (user_playlist_create, line 450). -/
inductive PlaylistResolution
  | existing (id : String)
  | created (name : String)
deriving DecidableEq

/-- The playlist-resolution branch of populate_year_spotify_playlist
(lines 537-544): when a name is supplied look it up and create a playlist
with that name only if absent; when no name is supplied always create a
playlist named "Concerts_{input_dir}". -/
def resolve_playlist_id (playlists : List PlaylistEntry) (input_dir : String)
    (playlist_name : Option String) : PlaylistResolution :=
  match playlist_name with
  | some name =>
      match get_playlist_id_by_name playlists name with
      | some pid => PlaylistResolution.existing pid
      | none => PlaylistResolution.created name
  | none => PlaylistResolution.created ("Concerts_" ++ input_dir)

-- ### Concerts file processing (SetlistClient.write_concerts_to_json)

/-- One row of the concerts CSV as the source reads it (lines 317-323):
Group, Day, Month, Year and the optional override columns JSON_Day,
JSON_Month, JSON_Year.  The CSV is read with keep_default_na=False
(line 308), so an absent override is the empty cell, modelled as none; a
populated cell holds a numeric value. -/
structure ConcertRow where
  Group : String
  Day : Nat
  Month : Nat
  Year : Nat
  JSON_Day : Option Nat
  JSON_Month : Option Nat
  JSON_Year : Option Nat
deriving DecidableEq

/-- "json_day = day if not json_day else json_day" (lines 325-327): an empty
cell is falsy in Python, a populated cell is truthy, so the base value is
used exactly when the override cell is empty. -/
def overrideOr (base : Nat) : Option Nat → Nat
  | none => base
  | some v => v

/-- concert_date = datetime.date(int(year), int(month), int(day))
(line 329): the API query date, always from Day/Month/Year. -/
def concert_query_date (row : ConcertRow) : Date :=
  ⟨row.Year, row.Month, row.Day⟩

/-- playlist_date = datetime.date(int(json_year), int(json_month),
int(json_day)) (line 330): the display date for output naming, from the
override columns where populated. -/
def concert_display_date (row : ConcertRow) : Date :=
  ⟨overrideOr row.Year row.JSON_Year, overrideOr row.Month row.JSON_Month,
    overrideOr row.Day row.JSON_Day⟩

/-- setlist_name = "{}_{}_{}.json".format(playlist_date, index+1, group)
(line 336). -/
def setlist_file_name (playlist_date : Date) (index : Nat) (group : String) : String :=
  dateStr playlist_date ++ "_" ++ toString (index + 1) ++ "_" ++ group ++ ".json"

/-- The row loop of SetlistClient.write_concerts_to_json (lines 315-337),
carrying the dataframe index: fetch is the value of
self.__get_setlist(group, concert_date); a matched row contributes the write
of one file (name, content), a failed row contributes nothing. -/
def write_concerts_aux (fetch : String → Date → Option SetlistJson) :
    Nat → List ConcertRow → List (String × SetlistJson)
  | _, [] => []
  | index, row :: rest =>
      match fetch row.Group (concert_query_date row) with
      | some result =>
          (setlist_file_name (concert_display_date row) index row.Group, result)
            :: write_concerts_aux fetch (index + 1) rest
      | none => write_concerts_aux fetch (index + 1) rest

/-- SetlistClient.write_concerts_to_json (lines 301-337): the sequence of
file writes it performs, in row order, starting from dataframe index 0. -/
def write_concerts_to_json (fetch : String → Date → Option SetlistJson)
    (rows : List ConcertRow) : List (String × SetlistJson) :=
  write_concerts_aux fetch 0 rows

/-- SetlistClient.__write_setlist_to_json (lines 279-299): open(file, "w")
followed by write — the file is created or truncated unconditionally, so the
state after the write maps the name to the new content whatever it held
before. -/
def writeFile (fs : String → Option SetlistJson) (setlist_name : String)
    (setlist_object : SetlistJson) : String → Option SetlistJson :=
  fun n => if n = setlist_name then some setlist_object else fs n

/-- Performing a list of writes in order on a directory state. -/
def runWrites (fs : String → Option SetlistJson)
    (writes : List (String × SetlistJson)) : String → Option SetlistJson :=
  writes.foldl (fun s w => writeFile s w.1 w.2) fs

/-- A concert row: group X, concert date 2020-05-01, override date
2020-05-05. -/
def rowC8a : ConcertRow := ⟨"X", 1, 5, 2020, some 5, some 5, some 2020⟩

/-- A concert row: group X, concert date 2020-05-02, the same override date
2020-05-05 as rowC8a. -/
def rowC8b : ConcertRow := ⟨"X", 2, 5, 2020, some 5, some 5, some 2020⟩

/-- A fetch oracle whose returned setlist records the queried date, so that
rows with different query dates receive different contents. -/
def fetchC8 : String → Date → Option SetlistJson :=
  fun g d => some ⟨[⟨⟨g⟩, ⟨[⟨[⟨strftime_dmy d⟩]⟩]⟩⟩]⟩

-- ### Lemmas about the retry loop

/-- One loop iteration on a retriable failure: the request is counted, the
retry is logged, and the loop continues with the counter incremented. -/
theorem getSetlistIter_retriable_step (cfg : SetlistConfig) (a fd : String)
    (resp : Nat → HttpResponse) (j r : Nat)
    (h200 : (resp j).status_code ≠ 200)
    (hR : (resp j).reason ∈ cfg.setlist_retriable_errors) :
    getSetlistIter cfg a fd resp j (r + 1) =
      { result := (getSetlistIter cfg a fd resp (j + 1) r).result,
        requests := (getSetlistIter cfg a fd resp (j + 1) r).requests + 1,
        logs := SetlistLog.retriableRetry a fd (resp j).reason (j + 1)
                  :: (getSetlistIter cfg a fd resp (j + 1) r).logs } := by
  simp [getSetlistIter, h200, hR]

/-- One loop iteration on a non-retriable failure: the loop exits at once
with one request and the non-retriable error logged. -/
theorem getSetlistIter_nonretriable (cfg : SetlistConfig) (a fd : String)
    (resp : Nat → HttpResponse) (j r : Nat)
    (h200 : (resp j).status_code ≠ 200)
    (hNR : (resp j).reason ∉ cfg.setlist_retriable_errors) :
    getSetlistIter cfg a fd resp j (r + 1) =
      { result := none, requests := 1,
        logs := [SetlistLog.errorNonRetriable (resp j).reason a fd] } := by
  simp [getSetlistIter, h200, hNR]

/-- A 200 response ends the loop with exactly one request and no retry log
line, whatever the body holds. -/
theorem getSetlistIter_200_requests (cfg : SetlistConfig) (a fd : String)
    (resp : Nat → HttpResponse) (j r : Nat)
    (h200 : (resp j).status_code = 200) :
    (getSetlistIter cfg a fd resp j (r + 1)).requests = 1 ∧
    ((getSetlistIter cfg a fd resp j (r + 1)).logs).countP SetlistLog.isRetry = 0 := by
  rcases hb : (resp j).body.setlist with _ | ⟨first, rest⟩
  · simp [getSetlistIter, h200, hb, SetlistLog.isRetry]
  · by_cases hl : first.sets.set.length > 0 <;>
      simp [getSetlistIter, h200, hb, hl, SetlistLog.isRetry]

/-- Running the loop across m consecutive retriable failures: the outcome is
the outcome of the loop started m iterations later, with m more requests made
and m more retry log lines. -/
theorem getSetlistIter_retriable_run (cfg : SetlistConfig) (a fd : String)
    (resp : Nat → HttpResponse) :
    ∀ (m j r : Nat), (∀ n, j ≤ n → n < j + m → retriableFailure cfg (resp n)) →
      (getSetlistIter cfg a fd resp j (r + m)).result
          = (getSetlistIter cfg a fd resp (j + m) r).result ∧
      (getSetlistIter cfg a fd resp j (r + m)).requests
          = m + (getSetlistIter cfg a fd resp (j + m) r).requests ∧
      ((getSetlistIter cfg a fd resp j (r + m)).logs).countP SetlistLog.isRetry
          = m + ((getSetlistIter cfg a fd resp (j + m) r).logs).countP SetlistLog.isRetry := by
  intro m
  induction m with
  | zero => intro j r _; simp
  | succ k ih =>
      intro j r hfail
      have hf0 : retriableFailure cfg (resp j) := hfail j le_rfl (by omega)
      have hstep := getSetlistIter_retriable_step cfg a fd resp j (r + k) hf0.1 hf0.2
      have ihs := ih (j + 1) r (fun n h1 h2 => hfail n (by omega) (by omega))
      have hjk : j + 1 + k = j + (k + 1) := by omega
      rw [hjk] at ihs
      have hr : r + (k + 1) = (r + k) + 1 := by omega
      rw [hr, hstep]
      have h1 := ihs.1
      have h2 := ihs.2.1
      have h3 := ihs.2.2
      refine ⟨h1, ?_, ?_⟩
      · dsimp only
        omega
      · dsimp only
        rw [List.countP_cons]
        simp only [SetlistLog.isRetry, if_true]
        omega

/-- The number of requests the loop makes is bounded by the number of
iterations its guard permits. -/
theorem getSetlistIter_requests_le (cfg : SetlistConfig) (a fd : String)
    (resp : Nat → HttpResponse) :
    ∀ (r j : Nat), (getSetlistIter cfg a fd resp j r).requests ≤ r := by
  intro r
  induction r with
  | zero => intro j; simp [getSetlistIter]
  | succ k ih =>
      intro j
      by_cases h200 : (resp j).status_code = 200
      · rcases hb : (resp j).body.setlist with _ | ⟨first, rest⟩
        · simp [getSetlistIter, h200, hb]
        · by_cases hl : first.sets.set.length > 0 <;>
            simp [getSetlistIter, h200, hb, hl]
      · by_cases hR : (resp j).reason ∈ cfg.setlist_retriable_errors
        · rw [getSetlistIter_retriable_step cfg a fd resp j k h200 hR]
          dsimp only
          have := ih (j + 1)
          omega
        · rw [getSetlistIter_nonretriable cfg a fd resp j k h200 hR]
          simp

-- ### Claim theorems for the fetch loop

/-- Claim C1: for every (artist, date) fetch, on retriable HTTP failures the
fetch retries, making at most setlist_num_retries retries (so at most
setlist_num_retries + 1 requests) before returning nothing as a terminal
failure; for every run of retriable failure reasons of length k at most the
configured maximum followed by a response that is not a retriable failure,
the fetch retries exactly k times (k retry log lines, k + 1 requests); on an
HTTP failure whose reason is not retriable the fetch returns nothing with no
further request. -/
theorem get_setlist_retry_policy (cfg : SetlistConfig) (resp : Nat → HttpResponse)
    (artist_name : String) (concert_date : Date) :
    ((∀ n, n ≤ cfg.setlist_num_retries → retriableFailure cfg (resp n)) →
      (get_setlist cfg resp artist_name concert_date).result = none ∧
      (get_setlist cfg resp artist_name concert_date).requests
        = cfg.setlist_num_retries + 1)
    ∧ (∀ k, k ≤ cfg.setlist_num_retries →
        (∀ n, n < k → retriableFailure cfg (resp n)) →
        ¬ retriableFailure cfg (resp k) →
        (get_setlist cfg resp artist_name concert_date).requests = k + 1 ∧
        ((get_setlist cfg resp artist_name concert_date).logs).countP
          SetlistLog.isRetry = k)
    ∧ (∀ k, k ≤ cfg.setlist_num_retries →
        (∀ n, n < k → retriableFailure cfg (resp n)) →
        (resp k).status_code ≠ 200 →
        (resp k).reason ∉ cfg.setlist_retriable_errors →
        (get_setlist cfg resp artist_name concert_date).result = none ∧
        (get_setlist cfg resp artist_name concert_date).requests = k + 1) := by
  refine ⟨?_, ?_, ?_⟩
  · intro hall
    have hrun := getSetlistIter_retriable_run cfg artist_name
      (strftime_dmy concert_date) resp (cfg.setlist_num_retries + 1) 0 0
      (fun n h1 h2 => hall n (by omega))
    simp only [Nat.zero_add] at hrun
    unfold get_setlist
    refine ⟨?_, ?_⟩
    · rw [hrun.1]; rfl
    · rw [hrun.2.1]; rfl
  · intro k hk hpre hstop
    have hrun := getSetlistIter_retriable_run cfg artist_name
      (strftime_dmy concert_date) resp k 0 (cfg.setlist_num_retries + 1 - k)
      (fun n h1 h2 => hpre n (by omega))
    have hsum : cfg.setlist_num_retries + 1 - k + k = cfg.setlist_num_retries + 1 := by
      omega
    rw [hsum] at hrun
    simp only [Nat.zero_add] at hrun
    have hrem : cfg.setlist_num_retries + 1 - k = (cfg.setlist_num_retries - k) + 1 := by
      omega
    rw [hrem] at hrun
    unfold get_setlist
    by_cases h200 : (resp k).status_code = 200
    · have hreq := getSetlistIter_200_requests cfg artist_name
        (strftime_dmy concert_date) resp k (cfg.setlist_num_retries - k) h200
      refine ⟨?_, ?_⟩
      · rw [hrun.2.1, hreq.1]
      · rw [hrun.2.2, hreq.2]
        omega
    · have hNR : (resp k).reason ∉ cfg.setlist_retriable_errors :=
        fun hmem => hstop ⟨h200, hmem⟩
      have hx := getSetlistIter_nonretriable cfg artist_name
        (strftime_dmy concert_date) resp k (cfg.setlist_num_retries - k) h200 hNR
      refine ⟨?_, ?_⟩
      · rw [hrun.2.1, hx]
      · rw [hrun.2.2, hx]
        simp [SetlistLog.isRetry]
  · intro k hk hpre h200 hNR
    have hrun := getSetlistIter_retriable_run cfg artist_name
      (strftime_dmy concert_date) resp k 0 (cfg.setlist_num_retries + 1 - k)
      (fun n h1 h2 => hpre n (by omega))
    have hsum : cfg.setlist_num_retries + 1 - k + k = cfg.setlist_num_retries + 1 := by
      omega
    rw [hsum] at hrun
    simp only [Nat.zero_add] at hrun
    have hrem : cfg.setlist_num_retries + 1 - k = (cfg.setlist_num_retries - k) + 1 := by
      omega
    rw [hrem] at hrun
    have hx := getSetlistIter_nonretriable cfg artist_name
      (strftime_dmy concert_date) resp k (cfg.setlist_num_retries - k) h200 hNR
    unfold get_setlist
    refine ⟨?_, ?_⟩
    · rw [hrun.1, hx]
    · rw [hrun.2.1, hx]

/-- Witness for claim C1 at a concrete input: one retriable 503 followed by a
success, with a maximum of 2 retries, makes exactly 2 requests and logs
exactly 1 retry. -/
theorem get_setlist_retry_policy_witness :
    (get_setlist ⟨2, ["Service Unavailable"]⟩
      (fun n => if n = 0 then ⟨503, "Service Unavailable", ⟨[]⟩⟩
                else ⟨200, "OK", exBodyOk⟩) "A" ⟨2020, 5, 1⟩).requests = 1 + 1 ∧
    ((get_setlist ⟨2, ["Service Unavailable"]⟩
      (fun n => if n = 0 then ⟨503, "Service Unavailable", ⟨[]⟩⟩
                else ⟨200, "OK", exBodyOk⟩) "A" ⟨2020, 5, 1⟩).logs).countP
      SetlistLog.isRetry = 1 :=
  (get_setlist_retry_policy ⟨2, ["Service Unavailable"]⟩
      (fun n => if n = 0 then ⟨503, "Service Unavailable", ⟨[]⟩⟩
                else ⟨200, "OK", exBodyOk⟩) "A" ⟨2020, 5, 1⟩).2.1 1
    (by decide) (by decide) (by decide)

/-- Claim C2 (amended): on a 200 response the fetch returns the raw response
body when the setlist array is non-empty and its FIRST element has at least
one set; otherwise (no setlists at all, or an empty first setlist — even if a
later setlist is non-empty) it logs the not-found error and returns nothing.
Exactly one request is made. -/
theorem get_setlist_success_cases (cfg : SetlistConfig) (resp : Nat → HttpResponse)
    (artist_name : String) (concert_date : Date)
    (h200 : (resp 0).status_code = 200) :
    ((resp 0).body.setlist = [] →
      get_setlist cfg resp artist_name concert_date =
        { result := none, requests := 1,
          logs := [SetlistLog.noSetlistFound artist_name (strftime_dmy concert_date)] })
    ∧ (∀ first rest, (resp 0).body.setlist = first :: rest →
        (first.sets.set.length > 0 →
          get_setlist cfg resp artist_name concert_date =
            { result := some (resp 0).body, requests := 1, logs := [] })
        ∧ (first.sets.set.length = 0 →
          get_setlist cfg resp artist_name concert_date =
            { result := none, requests := 1,
              logs := [SetlistLog.noSetlistFound artist_name
                         (strftime_dmy concert_date)] })) := by
  unfold get_setlist
  refine ⟨?_, ?_⟩
  · intro hb
    simp [getSetlistIter, h200, hb]
  · intro first rest hb
    refine ⟨?_, ?_⟩
    · intro hl
      simp [getSetlistIter, h200, hb, hl]
    · intro hl
      simp [getSetlistIter, h200, hb, hl]

/-- Witness for the amended claim C2: a success response with one non-empty
setlist is returned as-is with no log line. -/
theorem get_setlist_success_cases_witness :
    get_setlist ⟨0, []⟩ (fun _ => ⟨200, "OK", exBodyOk⟩) "A" ⟨2020, 5, 1⟩ =
      { result := some exBodyOk, requests := 1, logs := [] } :=
  ((get_setlist_success_cases ⟨0, []⟩ (fun _ => ⟨200, "OK", exBodyOk⟩) "A"
      ⟨2020, 5, 1⟩ rfl).2 ⟨⟨"A"⟩, ⟨[⟨[⟨"song1"⟩]⟩]⟩⟩ [] rfl).1 (by decide)

/-- Counterexample to claim C2 as stated: a 200 response that CONTAINS a
non-empty setlist (its second element) but whose first setlist has no sets
makes the fetch return nothing — the code only consults setlists[0]
(line 262), so "contains at least one non-empty setlist implies the raw
response is returned" is false. -/
theorem get_setlist_later_setlist_ignored :
    (∃ sl ∈ exBodyFirstEmpty.setlist, sl.sets.set.length > 0) ∧
    (get_setlist ⟨0, []⟩ (fun _ => ⟨200, "OK", exBodyFirstEmpty⟩) "A"
      ⟨2020, 5, 1⟩).result = none := by
  refine ⟨by decide, rfl⟩

/-- Claim C10: the fetch loop always terminates (it is a total function by
structural recursion on the iterations its guard permits), and for every
response sequence it issues at most setlist_num_retries + 1 requests. -/
theorem get_setlist_requests_bound (cfg : SetlistConfig) (resp : Nat → HttpResponse)
    (artist_name : String) (concert_date : Date) :
    (get_setlist cfg resp artist_name concert_date).requests
      ≤ cfg.setlist_num_retries + 1 :=
  getSetlistIter_requests_le cfg artist_name (strftime_dmy concert_date) resp
    (cfg.setlist_num_retries + 1) 0

-- ### Lemmas about track resolution

/-- track_step in closed form: one song appends its matched (truthy) uri, if
any, and exactly one log line. -/
theorem track_step_eq (searchTrack : String → String → Option String)
    (artist_name : String) (st : List String × List SpotifyLog) (song : Song) :
    track_step searchTrack artist_name st song =
      (st.1 ++ (matchedUri searchTrack artist_name song).toList,
       st.2 ++ [stepLog searchTrack artist_name song]) := by
  unfold track_step matchedUri stepLog
  rcases searchTrack song.name artist_name with _ | uri
  · simp
  · by_cases he : uri.isEmpty <;> simp [he]

/-- Folding track_step over a song list from any accumulator: the uris are
the accumulator followed by the matched uris in order, the logs one line per
song in order. -/
theorem foldl_track_step (searchTrack : String → String → Option String)
    (artist_name : String) :
    ∀ (songs : List Song) (acc : List String) (lg : List SpotifyLog),
      songs.foldl (track_step searchTrack artist_name) (acc, lg) =
        (acc ++ songs.filterMap (matchedUri searchTrack artist_name),
         lg ++ songs.map (stepLog searchTrack artist_name)) := by
  intro songs
  induction songs with
  | nil => intro acc lg; simp
  | cons s ss ih =>
      intro acc lg
      rw [List.foldl_cons, track_step_eq]
      dsimp only
      rw [ih]
      rcases hm : matchedUri searchTrack artist_name s with _ | u <;>
        simp [List.filterMap_cons, hm]

/-- Folding the nested set/song loops from any accumulator. -/
theorem foldl_sets_track_step (searchTrack : String → String → Option String)
    (artist_name : String) :
    ∀ (sets : List SetEntry) (acc : List String) (lg : List SpotifyLog),
      sets.foldl
          (fun st set_item => set_item.song.foldl (track_step searchTrack artist_name) st)
          (acc, lg) =
        (acc ++ (sets.flatMap (fun set_item => set_item.song)).filterMap
                  (matchedUri searchTrack artist_name),
         lg ++ (sets.flatMap (fun set_item => set_item.song)).map
                  (stepLog searchTrack artist_name)) := by
  intro sets
  induction sets with
  | nil => intro acc lg; simp
  | cons se ss ih =>
      intro acc lg
      rw [List.foldl_cons, foldl_track_step, ih]
      simp [List.flatMap_cons, List.filterMap_append, List.map_append,
        List.append_assoc]

/-- concert_track_uris in closed form, for a document with a first setlist:
the batch is exactly the matched truthy uris of the first setlist's songs in
setlist order, and each song yields exactly one log line. -/
theorem concert_track_uris_characterization
    (searchTrack : String → String → Option String) (doc : SetlistJson)
    (first : Setlist) (rest : List Setlist) (hdoc : doc.setlist = first :: rest) :
    concert_track_uris searchTrack doc =
      ((first.sets.set.flatMap (fun set_item => set_item.song)).filterMap
          (matchedUri searchTrack first.artist.name),
       (first.sets.set.flatMap (fun set_item => set_item.song)).map
          (stepLog searchTrack first.artist.name)) := by
  unfold concert_track_uris
  rw [hdoc]
  dsimp only
  rw [foldl_sets_track_step]
  simp

-- ### Claim theorems for the playlist builder

/-- Claim C3: when the Spotify search returns a top result (and the source
does not crash reading its first artist), the result's uri is accepted and
returned regardless of metadata mismatch; no warning is logged when the found
artist and track both equal the query under lowercasing, and a warning is
logged — with the uri still returned — when either differs. -/
theorem search_spotify_track_accepts_top (spSearch : String → List TrackItem)
    (track_name artist_name : String) (item : TrackItem) (rest : List TrackItem)
    (a0 : TrackArtist) (arest : List TrackArtist)
    (hq : spSearch (track_name ++ " " ++ artist_name) = item :: rest)
    (ha : item.artists = a0 :: arest) :
    search_spotify_track spSearch track_name artist_name =
      some (some item.uri,
        if lower a0.name = lower artist_name ∧ lower item.name = lower track_name
        then []
        else [SpotifyLog.mismatchWarning a0.name artist_name item.name track_name]) := by
  by_cases hA : lower a0.name = lower artist_name <;>
    by_cases hB : lower item.name = lower track_name <;>
      simp [search_spotify_track, hq, ha, hA, hB]

/-- Witness for claim C3: an exact case-insensitive match is accepted with no
warning; a different artist is accepted with a warning. -/
theorem search_spotify_track_accepts_top_witness :
    search_spotify_track (fun _ => [⟨[⟨"Artist"⟩], "Song", "uri1"⟩]) "song" "artist"
      = some (some "uri1", []) ∧
    search_spotify_track (fun _ => [⟨[⟨"Other Artist"⟩], "Song", "uri2"⟩]) "song" "artist"
      = some (some "uri2",
          [SpotifyLog.mismatchWarning "Other Artist" "artist" "Song" "song"]) := by
  constructor
  · have h := search_spotify_track_accepts_top
      (fun _ => [⟨[⟨"Artist"⟩], "Song", "uri1"⟩]) "song" "artist"
      ⟨[⟨"Artist"⟩], "Song", "uri1"⟩ [] ⟨"Artist"⟩ [] rfl rfl
    rw [h]
    decide
  · have h := search_spotify_track_accepts_top
      (fun _ => [⟨[⟨"Other Artist"⟩], "Song", "uri2"⟩]) "song" "artist"
      ⟨[⟨"Other Artist"⟩], "Song", "uri2"⟩ [] ⟨"Other Artist"⟩ [] rfl rfl
    rw [h]
    decide

/-- Claim C4 (amended): for a setlist document, the aggregated batch is
exactly the resolved identifiers of the matched songs whose identifier is
truthy (non-empty — "if track_uri:" treats an empty-string uri like a miss),
in setlist order; every song yields exactly one log line, the not-found error
when it is dropped; in particular a one-set setlist [A, B] with B unmatchable
and A resolving to a non-empty uri yields exactly A's identifier. -/
theorem concert_track_uris_spec (searchTrack : String → String → Option String)
    (doc : SetlistJson) (first : Setlist) (rest : List Setlist)
    (hdoc : doc.setlist = first :: rest) :
    ((concert_track_uris searchTrack doc).1 =
      (first.sets.set.flatMap (fun set_item => set_item.song)).filterMap
        (matchedUri searchTrack first.artist.name))
    ∧ ((concert_track_uris searchTrack doc).2 =
      (first.sets.set.flatMap (fun set_item => set_item.song)).map
        (stepLog searchTrack first.artist.name))
    ∧ (∀ A B uA, searchTrack A first.artist.name = some uA → uA ≠ "" →
        searchTrack B first.artist.name = none →
        first.sets.set = [⟨[⟨A⟩, ⟨B⟩]⟩] →
        (concert_track_uris searchTrack doc).1 = [uA] ∧
        (concert_track_uris searchTrack doc).2 =
          [SpotifyLog.addingSong first.artist.name A,
           SpotifyLog.songNotFound first.artist.name B]) := by
  have hc := concert_track_uris_characterization searchTrack doc first rest hdoc
  refine ⟨by rw [hc], by rw [hc], ?_⟩
  intro A B uA hA hne hB hsets
  have hemp : uA.isEmpty = false := by
    rcases huA : uA.isEmpty with _ | _
    · rfl
    · exact absurd ((String.isEmpty_iff uA).mp huA) hne
  rw [hc]
  refine ⟨?_, ?_⟩ <;>
    simp [hsets, List.flatMap_cons, matchedUri, stepLog, hA, hB, hemp]

/-- Witness for the amended claim C4 at a concrete setlist [A, B] with B
unmatchable. -/
theorem concert_track_uris_spec_witness :
    (concert_track_uris (fun s _ => if s = "A" then some "uriA" else none)
        ⟨[⟨⟨"X"⟩, ⟨[⟨[⟨"A"⟩, ⟨"B"⟩]⟩]⟩⟩]⟩).1 = ["uriA"] ∧
    (concert_track_uris (fun s _ => if s = "A" then some "uriA" else none)
        ⟨[⟨⟨"X"⟩, ⟨[⟨[⟨"A"⟩, ⟨"B"⟩]⟩]⟩⟩]⟩).2 =
      [SpotifyLog.addingSong "X" "A", SpotifyLog.songNotFound "X" "B"] :=
  (concert_track_uris_spec (fun s _ => if s = "A" then some "uriA" else none)
      ⟨[⟨⟨"X"⟩, ⟨[⟨[⟨"A"⟩, ⟨"B"⟩]⟩]⟩⟩]⟩ ⟨⟨"X"⟩, ⟨[⟨[⟨"A"⟩, ⟨"B"⟩]⟩]⟩⟩ [] rfl).2.2
    "A" "B" "uriA" (by decide) (by decide) (by decide) rfl

/-- Counterexample to claim C4 as stated: a song that DOES match — the search
returns a result whose identifier is the empty string — is nonetheless
dropped from the batch, because "if track_uri:" is false for the empty
string; so "the batch contains exactly the resolved identifiers of the songs
that did match" fails: the batch is empty, not the one-element list of the
resolved identifier. -/
theorem concert_track_uris_empty_uri_dropped :
    ((fun (_ _ : String) => (some "" : Option String)) "A" "X" = some "") ∧
    (concert_track_uris (fun _ _ => some "") ⟨[⟨⟨"X"⟩, ⟨[⟨[⟨"A"⟩]⟩]⟩⟩]⟩).1 = [] ∧
    ([] : List String) ≠ [""] := by
  decide

/-- Claim C5: per concert, an empty aggregated batch means no append call is
attempted and the no-matching-tracks error is logged; a non-empty batch is
submitted in one single append call carrying the whole batch, after all songs
are resolved. -/
theorem concert_mutations_batch (searchTrack : String → String → Option String)
    (playlist_id concert_name : String) (doc : SetlistJson) :
    ((concert_track_uris searchTrack doc).1 = [] →
      concert_mutations searchTrack playlist_id concert_name doc =
        ([], (concert_track_uris searchTrack doc).2
              ++ [SpotifyLog.noMatchingTracks concert_name]))
    ∧ ((concert_track_uris searchTrack doc).1 ≠ [] →
      concert_mutations searchTrack playlist_id concert_name doc =
        ([(playlist_id, (concert_track_uris searchTrack doc).1)],
         (concert_track_uris searchTrack doc).2
              ++ [SpotifyLog.concertAdded concert_name])) := by
  unfold concert_mutations
  constructor
  · intro h
    simp [h]
  · intro h
    rcases hr : (concert_track_uris searchTrack doc).1 with _ | ⟨u, us⟩
    · exact absurd hr h
    · simp [hr]

/-- Witness for claim C5: a one-song concert where the song is unmatched
yields no mutation and the error log; where it matches, one append call with
the whole batch. -/
theorem concert_mutations_batch_witness :
    concert_mutations (fun _ _ => none) "pl" "c1" ⟨[⟨⟨"X"⟩, ⟨[⟨[⟨"A"⟩]⟩]⟩⟩]⟩ =
      ([], [SpotifyLog.songNotFound "X" "A", SpotifyLog.noMatchingTracks "c1"]) ∧
    concert_mutations (fun _ _ => some "u1") "pl" "c1" ⟨[⟨⟨"X"⟩, ⟨[⟨[⟨"A"⟩]⟩]⟩⟩]⟩ =
      ([("pl", ["u1"])], [SpotifyLog.addingSong "X" "A", SpotifyLog.concertAdded "c1"]) := by
  constructor
  · have h := (concert_mutations_batch (fun _ _ => none) "pl" "c1"
      ⟨[⟨⟨"X"⟩, ⟨[⟨[⟨"A"⟩]⟩]⟩⟩]⟩).1 (by decide)
    rw [h]
    decide
  · have h := (concert_mutations_batch (fun _ _ => some "u1") "pl" "c1"
      ⟨[⟨⟨"X"⟩, ⟨[⟨[⟨"A"⟩]⟩]⟩⟩]⟩).2 (by decide)
    rw [h]
    decide

-- ### Lemmas about playlist lookup

/-- The linear scan returns the id of the first entry with the requested
name. -/
theorem get_playlist_id_first_match :
    ∀ (pre : List PlaylistEntry) (p : PlaylistEntry) (post : List PlaylistEntry)
      (n : String), (∀ q ∈ pre, q.name ≠ n) → p.name = n →
      get_playlist_id_by_name (pre ++ p :: post) n = some p.id := by
  intro pre
  induction pre with
  | nil =>
      intro p post n _ hp
      simp [get_playlist_id_by_name, hp]
  | cons q qs ih =>
      intro p post n hpre hp
      have hq : q.name ≠ n := hpre q (by simp)
      simp only [List.cons_append, get_playlist_id_by_name, if_neg hq]
      exact ih p post n (fun x hx => hpre x (by simp [hx])) hp

/-- The linear scan finds nothing when no entry has the requested name. -/
theorem get_playlist_id_none :
    ∀ (playlists : List PlaylistEntry) (n : String),
      (∀ q ∈ playlists, q.name ≠ n) →
      get_playlist_id_by_name playlists n = none := by
  intro playlists
  induction playlists with
  | nil => intro n _; rfl
  | cons q qs ih =>
      intro n h
      have hq : q.name ≠ n := h q (by simp)
      simp only [get_playlist_id_by_name, if_neg hq]
      exact ih n (fun x hx => h x (by simp [hx]))

/-- Claim C6: with a supplied name the builder reuses the id of the first
existing playlist with exactly that name; with a supplied name matching no
existing playlist it creates a playlist with that name; with no supplied
name it always creates a playlist named from the input directory. -/
theorem resolve_playlist_id_spec (input_dir : String) :
    (∀ (pre : List PlaylistEntry) (p : PlaylistEntry) (post : List PlaylistEntry)
        (n : String), (∀ q ∈ pre, q.name ≠ n) → p.name = n →
      resolve_playlist_id (pre ++ p :: post) input_dir (some n) =
        PlaylistResolution.existing p.id)
    ∧ (∀ (playlists : List PlaylistEntry) (n : String),
        (∀ q ∈ playlists, q.name ≠ n) →
      resolve_playlist_id playlists input_dir (some n) = PlaylistResolution.created n)
    ∧ (∀ playlists : List PlaylistEntry,
      resolve_playlist_id playlists input_dir none =
        PlaylistResolution.created ("Concerts_" ++ input_dir)) := by
  refine ⟨?_, ?_, ?_⟩
  · intro pre p post n hpre hp
    unfold resolve_playlist_id
    dsimp only
    rw [get_playlist_id_first_match pre p post n hpre hp]
  · intro playlists n h
    unfold resolve_playlist_id
    dsimp only
    rw [get_playlist_id_none playlists n h]
  · intro playlists
    rfl

/-- Witness for claim C6: first match wins among duplicates; creation happens
with the supplied name when absent, and with the derived name when no name is
supplied. -/
theorem resolve_playlist_id_spec_witness :
    resolve_playlist_id [⟨"other", "id0"⟩, ⟨"My List", "id1"⟩, ⟨"My List", "id2"⟩]
        "2023" (some "My List") = PlaylistResolution.existing "id1" ∧
    resolve_playlist_id [⟨"other", "id0"⟩] "2023" (some "My List")
      = PlaylistResolution.created "My List" ∧
    resolve_playlist_id [⟨"other", "id0"⟩] "2023" none
      = PlaylistResolution.created "Concerts_2023" :=
  ⟨(resolve_playlist_id_spec "2023").1 [⟨"other", "id0"⟩] ⟨"My List", "id1"⟩
      [⟨"My List", "id2"⟩] "My List" (by decide) rfl,
   (resolve_playlist_id_spec "2023").2.1 [⟨"other", "id0"⟩] "My List" (by decide),
   (resolve_playlist_id_spec "2023").2.2 [⟨"other", "id0"⟩]⟩

/-- Claim C9: concert processing reads only the first element of the
document's "setlist" array — two documents with the same first element (and
any later elements) produce the same resolved batch, the same log lines, and
the same playlist mutations. -/
theorem concert_processing_first_element_only
    (searchTrack : String → String → Option String)
    (playlist_id concert_name : String) (d1 d2 : SetlistJson) (e : Setlist)
    (h1 : d1.setlist.head? = some e) (h2 : d2.setlist.head? = some e) :
    concert_track_uris searchTrack d1 = concert_track_uris searchTrack d2 ∧
    concert_mutations searchTrack playlist_id concert_name d1 =
      concert_mutations searchTrack playlist_id concert_name d2 := by
  have key : ∀ d : SetlistJson, d.setlist.head? = some e →
      concert_track_uris searchTrack d =
        ((e.sets.set.flatMap (fun set_item => set_item.song)).filterMap
            (matchedUri searchTrack e.artist.name),
         (e.sets.set.flatMap (fun set_item => set_item.song)).map
            (stepLog searchTrack e.artist.name)) := by
    intro d hd
    rcases hds : d.setlist with _ | ⟨x, t⟩
    · rw [hds] at hd
      exact absurd hd (by simp)
    · rw [hds] at hd
      simp only [List.head?_cons, Option.some.injEq] at hd
      subst hd
      exact concert_track_uris_characterization searchTrack d x t hds
  have k1 := key d1 h1
  have k2 := key d2 h2
  refine ⟨k1.trans k2.symm, ?_⟩
  unfold concert_mutations
  rw [k1, k2]

/-- Witness for claim C9: appending a second, different setlist element to a
document does not change the processing outcome. -/
theorem concert_processing_first_element_only_witness :
    concert_track_uris (fun _ _ => none) ⟨[⟨⟨"X"⟩, ⟨[]⟩⟩]⟩ =
      concert_track_uris (fun _ _ => none)
        ⟨[⟨⟨"X"⟩, ⟨[]⟩⟩, ⟨⟨"Y"⟩, ⟨[⟨[⟨"Z"⟩]⟩]⟩⟩]⟩ ∧
    concert_mutations (fun _ _ => none) "pl" "c" ⟨[⟨⟨"X"⟩, ⟨[]⟩⟩]⟩ =
      concert_mutations (fun _ _ => none) "pl" "c"
        ⟨[⟨⟨"X"⟩, ⟨[]⟩⟩, ⟨⟨"Y"⟩, ⟨[⟨[⟨"Z"⟩]⟩]⟩⟩]⟩ :=
  concert_processing_first_element_only (fun _ _ => none) "pl" "c"
    ⟨[⟨⟨"X"⟩, ⟨[]⟩⟩]⟩ ⟨[⟨⟨"X"⟩, ⟨[]⟩⟩, ⟨⟨"Y"⟩, ⟨[⟨[⟨"Z"⟩]⟩]⟩⟩]⟩
    ⟨⟨"X"⟩, ⟨[]⟩⟩ rfl rfl

-- ### Claim theorems for the concerts file writer

/-- The row loop in closed form: one write per matched row, in row order,
with the dataframe index carried along. -/
theorem write_concerts_aux_eq (fetch : String → Date → Option SetlistJson) :
    ∀ (rows : List ConcertRow) (n : Nat),
      write_concerts_aux fetch n rows =
        (List.enumFrom n rows).filterMap (fun p =>
          (fetch p.2.Group (concert_query_date p.2)).map (fun result =>
            (setlist_file_name (concert_display_date p.2) p.1 p.2.Group, result))) := by
  intro rows
  induction rows with
  | nil => intro n; rfl
  | cons row rest ih =>
      intro n
      rcases hf : fetch row.Group (concert_query_date row) with _ | result <;>
        simp [write_concerts_aux, hf, ih, List.enumFrom_cons, List.filterMap_cons]

/-- Claim C7: the writer writes exactly one file per successfully matched
concert row, named from the display date, the 1-based sequence number
(dataframe index + 1) and the group; the display date takes each component
from the JSON_ override column when that cell is populated and from
Day/Month/Year otherwise, while the date sent to the API query is always
built from Day/Month/Year. -/
theorem write_concerts_naming (fetch : String → Date → Option SetlistJson)
    (rows : List ConcertRow) :
    (write_concerts_to_json fetch rows =
      (List.enumFrom 0 rows).filterMap (fun p =>
        (fetch p.2.Group (concert_query_date p.2)).map (fun result =>
          (setlist_file_name (concert_display_date p.2) p.1 p.2.Group, result))))
    ∧ (∀ row : ConcertRow, concert_query_date row = ⟨row.Year, row.Month, row.Day⟩)
    ∧ (∀ row : ConcertRow, concert_display_date row =
        ⟨overrideOr row.Year row.JSON_Year, overrideOr row.Month row.JSON_Month,
          overrideOr row.Day row.JSON_Day⟩)
    ∧ (∀ (d : Date) (i : Nat) (g : String), setlist_file_name d i g =
        dateStr d ++ "_" ++ toString (i + 1) ++ "_" ++ g ++ ".json") :=
  ⟨write_concerts_aux_eq fetch rows 0, fun _ => rfl, fun _ => rfl,
    fun _ _ _ => rfl⟩

-- ### Lemmas about the file write model

/-- Writing a list of writes none of which touches a name leaves that name's
content unchanged. -/
theorem runWrites_untouched :
    ∀ (writes : List (String × SetlistJson)) (fs : String → Option SetlistJson)
      (n : String), (∀ w ∈ writes, w.1 ≠ n) → runWrites fs writes n = fs n := by
  intro writes
  induction writes with
  | nil => intro fs n _; rfl
  | cons w ws ih =>
      intro fs n h
      have hw : w.1 ≠ n := h w (by simp)
      have step : runWrites fs (w :: ws) = runWrites (writeFile fs w.1 w.2) ws := rfl
      rw [step, ih (writeFile fs w.1 w.2) n (fun x hx => h x (by simp [hx]))]
      have hn : n ≠ w.1 := fun he => hw he.symm
      simp [writeFile, hn]

/-- Splitting a run of writes at an element. -/
theorem runWrites_append (fs : String → Option SetlistJson)
    (l1 l2 : List (String × SetlistJson)) :
    runWrites fs (l1 ++ l2) = runWrites (runWrites fs l1) l2 := by
  simp [runWrites, List.foldl_append]

-- ### Decimal rendering: the digits of Nat.repr and its injectivity

/-- Nat.toDigitsCore prepends the rendered digits in front of its
accumulator. -/
theorem toDigitsCore_eq_append :
    ∀ (fuel n : Nat) (ds : List Char),
      Nat.toDigitsCore 10 fuel n ds = Nat.toDigitsCore 10 fuel n [] ++ ds := by
  intro fuel
  induction fuel with
  | zero => intro n ds; rfl
  | succ f ih =>
      intro n ds
      simp only [Nat.toDigitsCore]
      by_cases h : n / 10 = 0
      · simp [h]
      · simp only [if_neg h]
        rw [ih (n / 10) (Nat.digitChar (n % 10) :: ds),
          ih (n / 10) [Nat.digitChar (n % 10)]]
        simp

/-- digitVal inverts digitChar on decimal digits. -/
theorem digitVal_digitChar : ∀ m, m < 10 → digitVal (Nat.digitChar m) = m := by
  decide

/-- digitChar yields a digit character on decimal digits. -/
theorem digitChar_isDigit : ∀ m, m < 10 → (Nat.digitChar m).isDigit = true := by
  decide

/-- Reading back the digits Nat.toDigitsCore emits recovers the number
whenever the fuel suffices, as it does in Nat.repr. -/
theorem decValue_toDigitsCore :
    ∀ (n : Nat), ∀ (fuel : Nat), n < fuel →
      decValue (Nat.toDigitsCore 10 fuel n []) = n := by
  intro n
  induction n using Nat.strong_induction_on with
  | _ n ih =>
      intro fuel hfuel
      rcases fuel with _ | f
      · omega
      · simp only [Nat.toDigitsCore]
        by_cases h : n / 10 = 0
        · simp only [if_pos h]
          have hn : n < 10 := by omega
          have hmod : n % 10 = n := by omega
          simp only [decValue, List.foldl_cons, List.foldl_nil]
          rw [hmod, digitVal_digitChar n hn]
          omega
        · simp only [if_neg h]
          rw [toDigitsCore_eq_append]
          have hdiv : n / 10 < n := by omega
          have hdivf : n / 10 < f := by omega
          have hmodlt : n % 10 < 10 := by omega
          unfold decValue
          rw [List.foldl_append]
          have hx := ih (n / 10) hdiv f hdivf
          unfold decValue at hx
          rw [hx]
          simp only [List.foldl_cons, List.foldl_nil]
          rw [digitVal_digitChar (n % 10) hmodlt]
          omega

/-- Every character Nat.toDigitsCore emits in base 10 is a decimal digit. -/
theorem toDigitsCore_digits :
    ∀ (fuel n : Nat) (ds : List Char), (∀ c ∈ ds, c.isDigit = true) →
      ∀ c ∈ Nat.toDigitsCore 10 fuel n ds, c.isDigit = true := by
  intro fuel
  induction fuel with
  | zero => intro n ds hds; exact hds
  | succ f ih =>
      intro n ds hds
      simp only [Nat.toDigitsCore]
      have hd : (Nat.digitChar (n % 10)).isDigit = true :=
        digitChar_isDigit (n % 10) (by omega)
      by_cases h : n / 10 = 0
      · simp only [if_pos h]
        intro c hc
        rcases List.mem_cons.mp hc with hc | hc
        · rw [hc]; exact hd
        · exact hds c hc
      · simp only [if_neg h]
        refine ih (n / 10) (Nat.digitChar (n % 10) :: ds) ?_
        intro c hc
        rcases List.mem_cons.mp hc with hc | hc
        · rw [hc]; exact hd
        · exact hds c hc

/-- Nat.repr emits only decimal digit characters. -/
theorem repr_data_digits (n : Nat) : ∀ c ∈ (Nat.repr n).data, c.isDigit = true :=
  toDigitsCore_digits (n + 1) n [] (fun c hc => absurd hc (List.not_mem_nil c))

/-- Nat.repr is injective: decValue reads the number back. -/
theorem repr_injective {m n : Nat} (h : Nat.repr m = Nat.repr n) : m = n := by
  have hm : decValue (Nat.repr m).data = m :=
    decValue_toDigitsCore m (m + 1) (Nat.lt_succ_self m)
  have hn : decValue (Nat.repr n).data = n :=
    decValue_toDigitsCore n (n + 1) (Nat.lt_succ_self n)
  rw [← hm, ← hn, h]

-- ### Filenames of distinct concert rows are distinct

/-- The characters of an appended string. -/
theorem string_data_append (s t : String) : (s ++ t).data = s.data ++ t.data := by
  cases s
  cases t
  rfl

/-- padNum emits only digit characters. -/
theorem padNum_digits (w n : Nat) : ∀ c ∈ (padNum w n).data, c.isDigit = true := by
  intro c hc
  unfold padNum at hc
  rw [string_data_append] at hc
  rcases List.mem_append.mp hc with hc | hc
  · rw [List.eq_of_mem_replicate hc]
    decide
  · exact repr_data_digits n c hc

/-- No character of a rendered date is an underscore. -/
theorem dateStr_no_underscore (d : Date) : ∀ c ∈ (dateStr d).data, c ≠ '_' := by
  intro c hc heq
  subst heq
  have hdig : ∀ (w n : Nat), ('_' : Char) ∈ (padNum w n).data → False := by
    intro w n hmem
    exact absurd (padNum_digits w n _ hmem) (by decide)
  unfold dateStr at hc
  simp only [string_data_append, List.mem_append] at hc
  rcases hc with ((((hc | hc) | hc) | hc) | hc)
  · exact hdig _ _ hc
  · exact absurd hc (by decide)
  · exact hdig _ _ hc
  · exact absurd hc (by decide)
  · exact hdig _ _ hc

/-- No character of a rendered natural number is an underscore. -/
theorem toString_nat_no_underscore (n : Nat) : ∀ c ∈ (toString n).data, c ≠ '_' := by
  intro c hc heq
  subst heq
  exact absurd (repr_data_digits n _ hc) (by decide)

/-- Splitting at the first underscore: appends that agree and whose prefixes
are underscore-free have equal prefixes and equal tails. -/
theorem underscore_split :
    ∀ (a1 a2 b1 b2 : List Char), (∀ c ∈ a1, c ≠ '_') → (∀ c ∈ a2, c ≠ '_') →
      a1 ++ '_' :: b1 = a2 ++ '_' :: b2 → a1 = a2 ∧ b1 = b2 := by
  intro a1
  induction a1 with
  | nil =>
      intro a2 b1 b2 _ h2 heq
      rcases a2 with _ | ⟨c2, a2t⟩
      · simp only [List.nil_append, List.cons.injEq] at heq
        exact ⟨rfl, heq.2⟩
      · simp only [List.nil_append, List.cons_append, List.cons.injEq] at heq
        exact absurd heq.1.symm (h2 c2 (by simp))
  | cons c a1t ih =>
      intro a2 b1 b2 h1 h2 heq
      rcases a2 with _ | ⟨c2, a2t⟩
      · simp only [List.cons_append, List.nil_append, List.cons.injEq] at heq
        exact absurd heq.1 (h1 c (by simp))
      · simp only [List.cons_append, List.cons.injEq] at heq
        obtain ⟨hc, ht⟩ := heq
        obtain ⟨ha, hb⟩ := ih a2t b1 b2 (fun x hx => h1 x (by simp [hx]))
          (fun x hx => h2 x (by simp [hx])) ht
        exact ⟨by rw [hc, ha], hb⟩

/-- The generated filenames of two rows with different dataframe indices
always differ, whatever their dates and groups: the date part contains no
underscore, so the segment between the first two underscores is exactly the
rendered sequence number, and decimal rendering is injective. -/
theorem setlist_file_name_injective (d1 d2 : Date) (i j : Nat) (g1 g2 : String)
    (hij : i ≠ j) : setlist_file_name d1 i g1 ≠ setlist_file_name d2 j g2 := by
  intro h
  have hdata := congrArg String.data h
  unfold setlist_file_name at hdata
  simp only [string_data_append, List.append_assoc] at hdata
  simp only [List.singleton_append] at hdata
  obtain ⟨_, hrest⟩ := underscore_split _ _ _ _ (dateStr_no_underscore d1)
    (dateStr_no_underscore d2) hdata
  obtain ⟨hseq, _⟩ := underscore_split _ _ _ _ (toString_nat_no_underscore (i + 1))
    (toString_nat_no_underscore (j + 1)) hrest
  have : i + 1 = j + 1 := repr_injective (String.ext hseq)
  omega

/-- Every write the row loop emits from start index n is named with a
sequence index at least n. -/
theorem write_concerts_aux_name_bound (fetch : String → Date → Option SetlistJson) :
    ∀ (rows : List ConcertRow) (n : Nat) (w : String × SetlistJson),
      w ∈ write_concerts_aux fetch n rows →
      ∃ (d : Date) (i : Nat) (g : String), w.1 = setlist_file_name d i g ∧ n ≤ i := by
  intro rows
  induction rows with
  | nil => intro n w hw; cases hw
  | cons row rest ih =>
      intro n w hw
      rcases hf : fetch row.Group (concert_query_date row) with _ | result
      · simp only [write_concerts_aux, hf] at hw
        obtain ⟨d, i, g, h1, h2⟩ := ih (n + 1) w hw
        exact ⟨d, i, g, h1, by omega⟩
      · simp only [write_concerts_aux, hf] at hw
        rcases List.mem_cons.mp hw with hw | hw
        · exact ⟨concert_display_date row, n, row.Group, by rw [hw], le_rfl⟩
        · obtain ⟨d, i, g, h1, h2⟩ := ih (n + 1) w hw
          exact ⟨d, i, g, h1, by omega⟩

/-- The filenames of the writes of one run of the row loop are pairwise
distinct: each write's name embeds its own sequence index. -/
theorem write_concerts_aux_names_distinct (fetch : String → Date → Option SetlistJson) :
    ∀ (rows : List ConcertRow) (n : Nat),
      (write_concerts_aux fetch n rows).Pairwise (fun w1 w2 => w1.1 ≠ w2.1) := by
  intro rows
  induction rows with
  | nil => intro n; exact List.Pairwise.nil
  | cons row rest ih =>
      intro n
      rcases hf : fetch row.Group (concert_query_date row) with _ | result
      · simp only [write_concerts_aux, hf]
        exact ih (n + 1)
      · simp only [write_concerts_aux, hf]
        refine List.Pairwise.cons ?_ (ih (n + 1))
        intro w hw
        obtain ⟨d, i, g, h1, h2⟩ := write_concerts_aux_name_bound fetch rest (n + 1) w hw
        dsimp only
        rw [h1]
        exact setlist_file_name_injective (concert_display_date row) d n i row.Group g
          (by omega)

/-- Claim C8 (amended): the write of a setlist file has no collision
detection — writing a name unconditionally replaces whatever the name held —
so when the same filename is written more than once the content of the last
write to that name is the final content; however, two concert rows never
generate the same filename within one run of write_concerts_to_json, because
the 1-based sequence number embedded in the name differs: filenames built
from different sequence indices always differ, and the writes of one run
carry pairwise distinct filenames. -/
theorem write_overwrite_semantics :
    (∀ (fs : String → Option SetlistJson) (setlist_name : String) (c : SetlistJson),
      writeFile fs setlist_name c setlist_name = some c)
    ∧ (∀ (fs : String → Option SetlistJson) (ws1 : List (String × SetlistJson))
        (setlist_name : String) (c : SetlistJson) (ws2 : List (String × SetlistJson)),
        (∀ w ∈ ws2, w.1 ≠ setlist_name) →
      runWrites fs (ws1 ++ (setlist_name, c) :: ws2) setlist_name = some c)
    ∧ (∀ (d1 d2 : Date) (i j : Nat) (g1 g2 : String), i ≠ j →
      setlist_file_name d1 i g1 ≠ setlist_file_name d2 j g2)
    ∧ (∀ (fetch : String → Date → Option SetlistJson) (rows : List ConcertRow),
      (write_concerts_to_json fetch rows).Pairwise (fun w1 w2 => w1.1 ≠ w2.1)) := by
  refine ⟨?_, ?_, ?_, ?_⟩
  · intro fs n c
    simp [writeFile]
  · intro fs ws1 n c ws2 h
    have step : runWrites (runWrites fs ws1) ((n, c) :: ws2)
        = runWrites (writeFile (runWrites fs ws1) n c) ws2 := rfl
    rw [runWrites_append, step, runWrites_untouched ws2 _ n h]
    simp [writeFile]
  · intro d1 d2 i j g1 g2 hij
    exact setlist_file_name_injective d1 d2 i j g1 g2 hij
  · intro fetch rows
    exact write_concerts_aux_names_distinct fetch rows 0

/-- Witness for the amended claim C8: writing the same name twice leaves the
second content, and the same display date with different sequence indices
gives different filenames. -/
theorem write_overwrite_semantics_witness :
    runWrites (fun _ => none)
        ([("f.json", exBodyOk)] ++ ("f.json", exBodyFirstEmpty) :: [])
        "f.json" = some exBodyFirstEmpty ∧
    setlist_file_name ⟨2020, 5, 5⟩ 0 "X" ≠ setlist_file_name ⟨2020, 5, 5⟩ 1 "X" :=
  ⟨write_overwrite_semantics.2.1 (fun _ => none) [("f.json", exBodyOk)] "f.json"
      exBodyFirstEmpty [] (by decide),
   write_overwrite_semantics.2.2.1 ⟨2020, 5, 5⟩ ⟨2020, 5, 5⟩ 0 1 "X" "X" (by decide)⟩

/-- Counterexample to claim C8 as stated: two concert rows with identical
override dates (the reading under which the claim's premise is satisfiable —
as literally stated the premise never holds, for the filenames of two rows
always differ in the sequence number) do NOT collide and nothing is
overwritten: both files exist afterwards and the earlier row's file still
holds the earlier row's setlist, not the later concert's setlist. -/
theorem write_concerts_no_overwrite_counterexample :
    concert_display_date rowC8a = concert_display_date rowC8b ∧
    (write_concerts_to_json fetchC8 [rowC8a, rowC8b]).map Prod.fst
      = ["2020-05-05_1_X.json", "2020-05-05_2_X.json"] ∧
    ("2020-05-05_1_X.json" : String) ≠ "2020-05-05_2_X.json" ∧
    runWrites (fun _ => none) (write_concerts_to_json fetchC8 [rowC8a, rowC8b])
        "2020-05-05_1_X.json"
      = some ⟨[⟨⟨"X"⟩, ⟨[⟨[⟨"01-05-2020"⟩]⟩]⟩⟩]⟩ ∧
    fetchC8 "X" (concert_query_date rowC8b)
      ≠ some ⟨[⟨⟨"X"⟩, ⟨[⟨[⟨"01-05-2020"⟩]⟩]⟩⟩]⟩ := by
  decide

end SetlistToPlaylist
